import Mathlib

set_option linter.unusedTactic false
set_option linter.unnecessarySeqFocus false

/-!
Shallow embedding of the quokko Lisp example compiler:
`src/examples/lisp/type_system/type_checker.py` (type inference over the
structural list-type lattice) and `src/examples/lisp/compiler.py` (code
emission and program orchestration), together with theorems checking the
specification's claims about them.

The repository files `examples/lisp/constructs.py` (the `Atom`/`Form`/
`Function` data model, `builtin_functions`, `is_function_def`, `is_import`,
`to_object`, `to_function`) and `examples/lisp/type_system/types.py` (the
type descriptors) are not part of the staged sources; the definitions below
that come from them are modelled from the spec and say so in their doc
comments.  Everything else is translated directly from the two staged files.
-/

/-- Modelled from the spec: the raw value carried by an `Atom`
(constructs.py is not under src/).  Per spec §3 a literal is raw token
text, a numeric literal value, a quoted string, or the boolean words —
the last two arrive as text.  `other` stands for an external raw value
that is neither a Python `str` nor a numeric (`int`/`float`) instance
(the escape hatch of spec §9). -/
inductive Literal where
  | str (s : String)
  | num (n : Int)
  | other
deriving DecidableEq, Repr

/-- Modelled from the spec: the node sum type of constructs.py.  An `Atom`
holds a literal value, a `Form` an ordered list of child nodes (spec §3). -/
inductive Node where
  | atom (value : Literal)
  | form (elements : List Node)

/-- Modelled from the spec: the closed type-descriptor set of
`type_system/types.py` (spec §3): `Primitive{String,Bool,Number}`,
`EmptyList`, `List(element)`, `PossibleEmptyList(element)`,
`Unrecognized`, with structural equality. -/
inductive LType where
  | string
  | bool
  | number
  | emptyList
  | list (element : LType)
  | possibleEmptyList (element : LType)
  | unrecognized
deriving DecidableEq, Repr

/-- Modelled from the spec: each type descriptor's canonical name (`name()`
in types.py, spec §2 "no behavior beyond equality and a canonical name"). -/
def LType.name : LType → String
  | .string => "String"
  | .bool => "Bool"
  | .number => "Number"
  | .emptyList => "EmptyList"
  | .list e => "List(" ++ e.name ++ ")"
  | .possibleEmptyList e => "PossibleEmptyList(" ++ e.name ++ ")"
  | .unrecognized => "Unrecognized"

/-- Modelled from the spec: `builtin_functions()` of constructs.py, the
fixed closed builtin-name table of spec §6. -/
def builtin_functions : List String :=
  ["import", "print", "+", "-", "*", "/", "not", "and", "or",
   "<", ">", "<=", ">=", "=", "list", "first", "rest", "++",
   "map", "filter", "lambda", "if"]

/-- The `startswith('"')` test of `is_string_literal`, written on the
character list of the text. -/
def starts_with_quote (value : String) : Bool :=
  match value.data with
  | [] => false
  | c :: _ => c = '"'

/-- The `endswith('"')` test of `is_string_literal`, written on the
character list of the text. -/
def ends_with_quote (value : String) : Bool :=
  match value.data.getLast? with
  | some c => c = '"'
  | none => false

/-- type_checker.py `is_string_literal`, on the atom's textual value:
the exact text `""`, or text that both starts and ends with `"`. -/
def is_string_literal (value : String) : Bool :=
  value = "\"\"" || (starts_with_quote value && ends_with_quote value)

/-- type_checker.py `is_bool_literal`. -/
def is_bool_literal (value : String) : Bool :=
  value = "true" || value = "false"

/-- type_checker.py `is_empty_list` (an `isinstance` check on the
descriptor). -/
def is_empty_list : LType → Bool
  | .emptyList => true
  | _ => false

/-- type_checker.py `is_list`. -/
def is_list : LType → Bool
  | .list _ => true
  | _ => false

/-- type_checker.py `is_possibly_empty`. -/
def is_possibly_empty : LType → Bool
  | .possibleEmptyList _ => true
  | _ => false

/-- The failure message both `inner` and `infer_element_types` build in
type_checker.py lines 36/46/57. -/
def incompatible_msg (t1 t2 : LType) : String :=
  "Incompatible list types '" ++ t1.name ++ "', '" ++ t2.name ++ "'"

mutual

/-- The local function `inner(t1, t2)` of type_checker.py
`infer_element_types` (lines 32-49): a sequence of `is_list`-guarded
cases, every one requiring `t1` to be a `ListType`; the fallback returns
failure with an empty message (discarded by the caller). -/
def iet_inner : LType → LType → Except String LType
  | .list a, .list b =>
    match infer_element_types a b with
    | .ok element_type => .ok (.list element_type)
    | .error _ => .error (incompatible_msg (.list a) (.list b))
  | .list a, .emptyList => .ok (.possibleEmptyList a)
  | .list a, .possibleEmptyList b =>
    match infer_element_types a b with
    | .ok _ => .ok (.possibleEmptyList a)
    | .error _ => .error (incompatible_msg (.list a) (.possibleEmptyList b))
  | _, _ => .error ""
termination_by t1 t2 => (sizeOf t1 + sizeOf t2, 0)
decreasing_by all_goals (simp_wf <;> omega)

/-- type_checker.py `infer_element_types` (lines 31-59), the list-type
unification: try `inner(list2, list1)`, then `inner(list1, list2)`, then
the structural-equality fallback; a Python `(True, type)` result is
`.ok type`, a `(False, message)` result is `.error message`. -/
def infer_element_types (list1 list2 : LType) : Except String LType :=
  match iet_inner list2 list1 with
  | .ok list_type => .ok list_type
  | .error _ =>
    match iet_inner list1 list2 with
    | .ok list_type => .ok list_type
    | .error _ =>
      if list1 = list2 then .ok list1
      else .error (incompatible_msg list1 list2)
termination_by (sizeOf list1 + sizeOf list2, 1)
decreasing_by all_goals (simp_wf <;> omega)

end

/-- Continuation of `digit_group` after its first digit: digits, with
single underscores allowed between digits. -/
def digit_group_rest : List Char → Bool
  | [] => true
  | '_' :: c :: rest => c.isDigit && digit_group_rest rest
  | c :: rest => c.isDigit && digit_group_rest rest

/-- Modelled from the spec: acceptance of a single underscore-separated
ASCII digit group, the common core of CPython's `float(...)` and
`int(...)` text parsing (the type checker calls those library functions
on the atom's text; their code is outside the repository).  A group is
non-empty, starts and ends with a digit, and single underscores may
stand between digits. -/
def digit_group : List Char → Bool
  | [] => false
  | c :: rest => c.isDigit && digit_group_rest rest

/-- Modelled from the spec: strip leading and trailing ASCII whitespace,
as CPython's numeric constructors do before parsing. -/
def py_strip (cs : List Char) : List Char :=
  ((cs.dropWhile Char.isWhitespace).reverse.dropWhile Char.isWhitespace).reverse

/-- Modelled from the spec: drop one leading sign character. -/
def drop_sign : List Char → List Char
  | '+' :: rest => rest
  | '-' :: rest => rest
  | cs => cs

/-- Modelled from the spec: the case-insensitive special float words
`inf`, `infinity`, `nan` accepted by CPython's `float(...)`. -/
def is_inf_nan (cs : List Char) : Bool :=
  let lower := cs.map Char.toLower
  lower = ['i', 'n', 'f'] ||
    lower = ['i', 'n', 'f', 'i', 'n', 'i', 't', 'y'] ||
    lower = ['n', 'a', 'n']

/-- Modelled from the spec: a float mantissa — digits, digits on either
or both sides of a single decimal point. -/
def float_mantissa (cs : List Char) : Bool :=
  if cs.contains '.' then
    let before := cs.takeWhile (fun c => c ≠ '.')
    let after := (cs.dropWhile (fun c => c ≠ '.')).tail
    if after.contains '.' then false
    else
      match before, after with
      | [], [] => false
      | [], a => digit_group a
      | b, [] => digit_group b
      | b, a => digit_group b && digit_group a
  else digit_group cs

/-- Modelled from the spec: acceptance of CPython's `float(text)` —
optional surrounding whitespace, optional sign, then either a special
word or a mantissa with an optional signed exponent.  (Non-ASCII digits,
which CPython also accepts, are outside the modelled input space.) -/
def py_float_ok (s : String) : Bool :=
  let cs := drop_sign (py_strip s.data)
  if is_inf_nan cs then true
  else if cs.any (fun c => c = 'e' || c = 'E') then
    let mantissa := cs.takeWhile (fun c => c ≠ 'e' && c ≠ 'E')
    let exponent := (cs.dropWhile (fun c => c ≠ 'e' && c ≠ 'E')).tail
    float_mantissa mantissa && digit_group (drop_sign exponent)
  else float_mantissa cs

/-- Modelled from the spec: acceptance of CPython's `int(text)` in base
10 — optional surrounding whitespace, optional sign, one digit group. -/
def py_int_ok (s : String) : Bool :=
  digit_group (drop_sign (py_strip s.data))

/-- The second component of the pair `infer_type` returns: a type on
success (and for the `Unrecognized` fallback also on failure), a
diagnostic string on every other failure. -/
inductive Payload where
  | ty (t : LType)
  | msg (s : String)
deriving DecidableEq, Repr

/-- The `Atom` registration of type_checker.py `infer_type` (lines
67-89): string literals, boolean literals, namespace lookup, the
`float(...)`/`int(...)` parse attempts, then the textual failure; a
non-text numeric value is `Number`, and any other raw value is the
`(False, UnrecognizedType())` fallback. -/
def infer_type_atom (value : Literal) (ns : List (String × LType)) : Bool × Payload :=
  match value with
  | .str s =>
    if is_string_literal s then (true, .ty .string)
    else if is_bool_literal s then (true, .ty .bool)
    else
      match ns.lookup s with
      | some t => (true, .ty t)
      | none =>
        if py_float_ok s then (true, .ty .number)
        else if py_int_ok s then (true, .ty .number)
        else (false, .msg ("Cannot infer type of '" ++ s ++ "'"))
  | .num _ => (true, .ty .number)
  | .other => (false, .ty .unrecognized)

/-- type_checker.py line 193: the error closing the `Form` branch, hit
when the head name is neither in the namespace nor a builtin with a
match arm. -/
def unrecognized_form_msg (name : String) : Bool × Payload :=
  (false, .msg ("Unrecognized form '" ++ name ++ "', cannot infer type"))

/-- The type combination of the `case "++"` arm (type_checker.py lines
134-142), after both sub-inferences succeeded: `EmptyList` accepts any
element, a list or possibly-empty list goes through unification, and
anything else — or a failed unification — is the append error naming
both types. -/
def infer_append_types (element_type list_type : LType) : Option (Bool × Payload) :=
  if is_empty_list list_type then some (true, .ty (.list element_type))
  else if is_list list_type || is_possibly_empty list_type then
    match infer_element_types (.list element_type) list_type with
    | .ok resulting_list_type => some (true, .ty resulting_list_type)
    | .error _ =>
      some (false, .msg ("Cannot append element of type '" ++
        element_type.name ++ "' to '" ++ list_type.name ++ "'"))
  else
    some (false, .msg ("Cannot append element of type '" ++
      element_type.name ++ "' to '" ++ list_type.name ++ "'"))

/-- The branch combination of the `case "if"` arm (type_checker.py lines
180-191), after condition and both branches inferred successfully: equal
branch types are returned as is; unequal branches where one side
`is_list` and the other `is_empty_list` or `is_possibly_empty` (in
either order, with no constraint between the element types) produce
`PossibleEmptyList` of the `ListType` side's element (the Python ternary
reads `.element` of the true branch when it is a `ListType` and of the
false branch otherwise — an attribute that `ListType` and
`PossibleEmptyList` carry); any other unequal pair is the
branch-mismatch error naming both types. -/
def infer_if_branches (true_branch_type false_branch_type : LType) :
    Option (Bool × Payload) :=
  if true_branch_type ≠ false_branch_type then
    if (is_list true_branch_type &&
          (is_empty_list false_branch_type || is_possibly_empty false_branch_type)) ||
       (is_list false_branch_type &&
          (is_empty_list true_branch_type || is_possibly_empty true_branch_type)) then
      match true_branch_type with
      | .list element => some (true, .ty (.possibleEmptyList element))
      | _ =>
        match false_branch_type with
        | .list element => some (true, .ty (.possibleEmptyList element))
        | .possibleEmptyList element => some (true, .ty (.possibleEmptyList element))
        | _ => none
    else
      some (false, .msg ("Incompatible types in if branches: '" ++
        true_branch_type.name ++ "' and '" ++ false_branch_type.name ++ "'"))
  else some (true, .ty true_branch_type)

mutual

/-- type_checker.py `infer_type` (lines 62-194), both `singledispatch`
registrations in one match.  The Python returns a pair
`(bool, type-or-message)`; `none` models the paths on which it produces
no such pair — the `Form` branch falling off the end when the first
element is not an `Atom` (it returns `None`), and the uncaught
`IndexError` of out-of-range element access (together with the
propagation of either out of recursive calls, where the Python caller
instead fails to unpack the returned `None`).  Success payloads are
always types; the `.msg`-on-success branches in the helpers below are
unreachable and close their matches as a crash.  The head atom's value
appears in `namespace`/builtin lookups only when it is text; a numeric
or other raw head value reaches line 193's error with its printed
form. -/
def infer_type : Node → List (String × LType) → Option (Bool × Payload)
  | .atom value, ns => some (infer_type_atom value ns)
  | .form elements, ns =>
    match elements with
    | [] => none
    | first_element :: args =>
      match first_element with
      | .form _ => none
      | .atom (.num n) => some (unrecognized_form_msg (toString n))
      | .atom .other => some (unrecognized_form_msg "None")
      | .atom (.str name) =>
        match ns.lookup name with
        | some t => some (true, .ty t)
        | none =>
          if name ∈ builtin_functions then
            match name with
            | "list" => infer_form_list ns args
            | "++" => infer_form_append ns args
            | "first" => infer_form_first ns args
            | "rest" => infer_form_rest ns args
            | "if" => infer_form_if ns args
            | _ => some (unrecognized_form_msg name)
          else some (unrecognized_form_msg name)
termination_by node _ => (sizeOf node, 0)
decreasing_by all_goals (simp_wf <;> omega)

/-- The `case "list"` arm of type_checker.py `infer_type` (lines
102-122): zero arguments give `EmptyList`; otherwise the first
argument's type seeds the fold `infer_list_loop` starting at element
index 2. -/
def infer_form_list (ns : List (String × LType)) (args : List Node) :
    Option (Bool × Payload) :=
  match args with
  | [] => some (true, .ty .emptyList)
  | seed :: rest =>
    match infer_type seed ns with
    | none => none
    | some (result, payload) =>
      if !result then some (false, payload)
      else
        match payload with
        | .msg _ => none
        | .ty element_type => infer_list_loop ns rest element_type 2
termination_by (sizeOf args, 1)
decreasing_by all_goals (simp_wf <;> omega)

/-- The `for i in range(2, len(elements))` fold of the `list` case
(type_checker.py lines 110-122): `i` is the index of the next element in
the form's element list (the seed argument sat at index 1), and the
failure message reports `i - 1` together with both conflicting type
names.  On success the accumulated element type is the `.element` of the
unification result (always a `ListType` there; the `PossibleEmptyList`
arm mirrors that descriptor also carrying an `element` attribute, and
the final arm the `AttributeError` otherwise). -/
def infer_list_loop (ns : List (String × LType)) :
    List Node → LType → Nat → Option (Bool × Payload)
  | [], element_type, _ => some (true, .ty (.list element_type))
  | element :: rest, element_type, i =>
    match infer_type element ns with
    | none => none
    | some (result, payload) =>
      if !result then some (false, payload)
      else
        match payload with
        | .msg _ => none
        | .ty i_type =>
          match infer_element_types (.list element_type) (.list i_type) with
          | .error _ =>
            some (false, .msg ("List " ++ toString (i - 1) ++ "-th element has type '" ++
              i_type.name ++ "' which is not compatible with inferred type '" ++
              element_type.name ++ "'"))
          | .ok resulting_list_type =>
            match resulting_list_type with
            | .list element => infer_list_loop ns rest element (i + 1)
            | .possibleEmptyList element => infer_list_loop ns rest element (i + 1)
            | _ => none
termination_by l _ _ => (sizeOf l, 1)
decreasing_by all_goals (simp_wf <;> omega)

/-- The `case "++"` arm of type_checker.py `infer_type` (lines 124-142):
both sub-expressions are inferred before either result flag is checked
(so a missing second element crashes even when the first failed); the
first stage infers the element argument. -/
def infer_form_append (ns : List (String × LType)) (args : List Node) :
    Option (Bool × Payload) :=
  match args with
  | [] => none
  | element_arg :: rest1 =>
    match infer_type element_arg ns with
    | none => none
    | some (result_element, element_payload) =>
      infer_append_second ns result_element element_payload rest1
termination_by (sizeOf args, 1)
decreasing_by all_goals (simp_wf <;> omega)

/-- Continuation of the `case "++"` arm: infer the list argument
(`elements[2]`), then check the element flag, the list flag, and hand
the two types to `infer_append_types`. -/
def infer_append_second (ns : List (String × LType)) (result_element : Bool)
    (element_payload : Payload) (rest1 : List Node) : Option (Bool × Payload) :=
  match rest1 with
  | [] => none
  | list_arg :: _ =>
    match infer_type list_arg ns with
    | none => none
    | some (result_list, list_payload) =>
      if !result_element then some (false, element_payload)
      else if !result_list then some (false, list_payload)
      else
        match element_payload, list_payload with
        | .ty element_type, .ty list_type => infer_append_types element_type list_type
        | _, _ => none
termination_by (sizeOf rest1, 0)
decreasing_by all_goals (simp_wf <;> omega)

/-- The `case "first"` arm of type_checker.py `infer_type` (lines
144-152): the argument must infer to a `ListType`, whose element type is
returned; every other type is rejected. -/
def infer_form_first (ns : List (String × LType)) (args : List Node) :
    Option (Bool × Payload) :=
  match args with
  | [] => none
  | arg :: _ =>
    match infer_type arg ns with
    | none => none
    | some (result, payload) =>
      if !result then some (false, payload)
      else
        match payload with
        | .msg _ => none
        | .ty list_type =>
          match list_type with
          | .list element => some (true, .ty element)
          | _ =>
            some (false, .msg ("'first' expected a non-empty List type but got '" ++
              list_type.name ++ "'"))
termination_by (sizeOf args, 1)
decreasing_by all_goals (simp_wf <;> omega)

/-- The `case "rest"` arm of type_checker.py `infer_type` (lines
154-162): the argument must infer to a `ListType`; the result is
`PossibleEmptyList` of its element type. -/
def infer_form_rest (ns : List (String × LType)) (args : List Node) :
    Option (Bool × Payload) :=
  match args with
  | [] => none
  | arg :: _ =>
    match infer_type arg ns with
    | none => none
    | some (result, payload) =>
      if !result then some (false, payload)
      else
        match payload with
        | .msg _ => none
        | .ty list_type =>
          match list_type with
          | .list element => some (true, .ty (.possibleEmptyList element))
          | _ =>
            some (false, .msg ("'rest' expected a non-empty List type but got '" ++
              list_type.name ++ "'"))
termination_by (sizeOf args, 1)
decreasing_by all_goals (simp_wf <;> omega)

/-- The `case "if"` arm of type_checker.py `infer_type` (lines 164-191),
first stage: infer the condition (`elements[1]`). -/
def infer_form_if (ns : List (String × LType)) (args : List Node) :
    Option (Bool × Payload) :=
  match args with
  | [] => none
  | condition :: rest1 =>
    match infer_type condition ns with
    | none => none
    | some (result_condition, condition_payload) =>
      if !result_condition then some (false, condition_payload)
      else
        match condition_payload with
        | .msg _ => none
        | .ty condition_type =>
          if condition_type ≠ .bool then
            some (false, .msg ("Expected if condition to have type 'bool' but got '" ++
              condition_type.name ++ "'"))
          else infer_if_true_branch ns rest1
termination_by (sizeOf args, 1)
decreasing_by all_goals (simp_wf <;> omega)

/-- Second stage of the `case "if"` arm: infer the true branch
(`elements[2]`). -/
def infer_if_true_branch (ns : List (String × LType)) (rest1 : List Node) :
    Option (Bool × Payload) :=
  match rest1 with
  | [] => none
  | true_branch :: rest2 =>
    match infer_type true_branch ns with
    | none => none
    | some (result_true_branch, true_payload) =>
      if !result_true_branch then some (false, true_payload)
      else
        match true_payload with
        | .msg _ => none
        | .ty true_branch_type => infer_if_false_branch ns true_branch_type rest2
termination_by (sizeOf rest1, 0)
decreasing_by all_goals (simp_wf <;> omega)

/-- Third stage of the `case "if"` arm: infer the false branch
(`elements[3]`), then combine the branch types. -/
def infer_if_false_branch (ns : List (String × LType)) (true_branch_type : LType)
    (rest2 : List Node) : Option (Bool × Payload) :=
  match rest2 with
  | [] => none
  | false_branch :: _ =>
    match infer_type false_branch ns with
    | none => none
    | some (result_false_branch, false_payload) =>
      if !result_false_branch then some (false, false_payload)
      else
        match false_payload with
        | .msg _ => none
        | .ty false_branch_type => infer_if_branches true_branch_type false_branch_type
termination_by (sizeOf rest2, 0)
decreasing_by all_goals (simp_wf <;> omega)

end

/-- Modelled from the spec: Python's `str(...)`/f-string rendering of an
atom's raw value, used when a value is interpolated into emitted text or
a message — text renders as itself, a number as its decimal form.  The
`other` raw value is external and its rendering unspecified; `None` (the
rendering of Python's `None`) stands for it. -/
def Literal.text : Literal → String
  | .str s => s
  | .num n => toString n
  | .other => "None"

mutual

/-- Modelled from the spec: the f-string rendering of a whole node inside
error messages (`f"... but got {obj.elements[0]}"`).  The dataclass-style
shape chosen here is one fixed injective rendering; the claims only need
the message to identify the offending node. -/
def node_text : Node → String
  | .atom value => "Atom(value=" ++ value.text ++ ")"
  | .form elements => "Form(elements=[" ++ node_list_text elements ++ "])"

/-- Comma-separated rendering of a node list for `node_text`. -/
def node_list_text : List Node → String
  | [] => ""
  | [element] => node_text element
  | element :: rest => node_text element ++ ", " ++ node_list_text rest

end

/-- The Python exception channel of compiler.py: the explicit
`TypeError`/`SyntaxError` raises, and the `IndexError`/`AttributeError`
of out-of-range or wrong-shape element access. -/
inductive PyErr where
  | typeError (msg : String)
  | syntaxError (msg : String)
  | indexError
  | attributeError
deriving DecidableEq, Repr

/-- compiler.py `' ' * (indent * 4)`. -/
def current_indent_str (indent : Nat) : String :=
  String.mk (List.replicate (indent * 4) ' ')

/-- The `case "import"` arm of compiler.py `compile_builtin` (lines
59-60): the import statement of the second element's literal value
(`form.elements[1].value`; a missing element raises `IndexError`, a
`Form` there has no `value`). -/
def emit_import : List Node → Except PyErr String
  | [] => .error .indexError
  | .form _ :: _ => .error .attributeError
  | .atom w :: _ => .ok ("import " ++ w.text)

mutual

/-- compiler.py `compile_obj` (lines 14-43), both `singledispatch`
registrations in one match.  The `Atom` branch rewrites the words
`true`/`false` to their capitalized target spelling and prefixes the
indentation; the `Form` branch returns the empty string for an empty
form, raises `SyntaxError` when the first element is not an `Atom`,
delegates builtin heads to `compile_builtin` behind the indentation
prefix, and otherwise emits a generic call with comma-joined arguments
each compiled at indent 0 (the default of the recursive call). -/
def compile_obj : Node → Nat → Except PyErr String
  | .atom obj, indent =>
    let value : String :=
      match obj with
      | .str s => if s = "true" || s = "false" then s.capitalize else s
      | v => v.text
    .ok (current_indent_str indent ++ value)
  | .form elements, indent =>
    match elements with
    | [] => .ok ""
    | first :: rest =>
      match first with
      | .form inner_elements =>
        .error (.syntaxError ("Expected Atom as first element of Form, but got " ++
          node_text (.form inner_elements)))
      | .atom v =>
        let form_name := v.text
        if form_name ∈ builtin_functions then
          match compile_builtin (.atom v :: rest) with
          | .error e => .error e
          | .ok builtin_text => .ok (current_indent_str indent ++ builtin_text)
        else
          match create_body "," rest with
          | .error e => .error e
          | .ok args_text => .ok (current_indent_str indent ++ form_name ++ "(" ++ args_text ++ ")")
termination_by node _ => (sizeOf node, 0)
decreasing_by all_goals ((try subst_vars) <;> simp_wf <;> omega)

/-- compiler.py `create_body` (lines 49-50): the delimiter-join of every
element compiled at indent 0 (the argument default), elements compiled
left to right with the first exception propagating. -/
def create_body (delim : String) : List Node → Except PyErr String
  | [] => .ok ""
  | [element] => compile_obj element 0
  | element :: rest =>
    match compile_obj element 0 with
    | .error e => .error e
    | .ok compiled => create_body_rest delim compiled rest
termination_by l => (sizeOf l, 0)
decreasing_by all_goals ((try subst_vars) <;> simp_wf <;> omega)

/-- Continuation of `create_body`: join the already-compiled first
element with the joined remainder. -/
def create_body_rest (delim compiled : String) (rest : List Node) : Except PyErr String :=
  match create_body delim rest with
  | .error e => .error e
  | .ok rest_text => .ok (compiled ++ delim ++ rest_text)
termination_by (sizeOf rest, 1)
decreasing_by all_goals ((try subst_vars) <;> simp_wf <;> omega)

/-- compiler.py `create_op` (lines 52-56): the fixed-arity infix
emitters — `TypeError` naming the operator, the expected count and the
actual count when `len(form.elements) - 1` differs from `n_args`,
otherwise the infix join. -/
def create_op (op : String) (args : List Node) (n_args : Nat) : Except PyErr String :=
  if args.length ≠ n_args then
    .error (.typeError ("'" ++ op ++ "' takes " ++ toString n_args ++ " arguments but " ++
      toString args.length ++ " were given!"))
  else create_body (" " ++ op ++ " ") args
termination_by (sizeOf args, 1)
decreasing_by all_goals ((try subst_vars) <;> simp_wf <;> omega)

/-- The parameter-list handling of the `lambda` case of compiler.py
`compile_builtin` (lines 115-122): an `Atom` parameter is compiled
directly, a `Form` parameter becomes the comma-joined group of its
elements (the Python `isinstance` dispatch on `form.elements[1]`; its
final `TypeError` branch is unreachable for the two-constructor node
type). -/
def compile_lambda_params : Node → Except PyErr String
  | .atom v => compile_obj (.atom v) 0
  | .form inner_elements => create_body ", " inner_elements
termination_by node => (sizeOf node, 1)
decreasing_by all_goals ((try subst_vars) <;> simp_wf <;> omega)

/-- The `case "print"` arm of compiler.py `compile_builtin` (lines
61-62). -/
def emit_print (args : List Node) : Except PyErr String :=
  match create_body ", " args with
  | .error e => .error e
  | .ok body => .ok ("print(" ++ body ++ ")")
termination_by (sizeOf args, 1)
decreasing_by all_goals ((try subst_vars) <;> simp_wf <;> omega)

/-- The `case "not"` arm of compiler.py `compile_builtin` (lines 71-75):
exactly one argument, emitted behind the prefix `' not '`. -/
def emit_not (args : List Node) : Except PyErr String :=
  if args.length ≠ 1 then
    .error (.typeError ("'not' takes 1 argument but " ++ toString args.length ++
      " were given!"))
  else
    match create_body "" args with
    | .error e => .error e
    | .ok body => .ok (" not " ++ body)
termination_by (sizeOf args, 1)
decreasing_by all_goals ((try subst_vars) <;> simp_wf <;> omega)

/-- The `case "="` arm of compiler.py `compile_builtin` (lines 80-84):
exactly two arguments joined by the target equality operator. -/
def emit_eq (args : List Node) : Except PyErr String :=
  if args.length ≠ 2 then
    .error (.typeError ("'=' takes 2 arguments but " ++ toString args.length ++
      " were given!"))
  else create_body " == " args
termination_by (sizeOf args, 1)
decreasing_by all_goals ((try subst_vars) <;> simp_wf <;> omega)

/-- The `case "list"` arm of compiler.py `compile_builtin` (lines
85-86). -/
def emit_list (args : List Node) : Except PyErr String :=
  match create_body ", " args with
  | .error e => .error e
  | .ok body => .ok ("list_create(" ++ body ++ ")")
termination_by (sizeOf args, 1)
decreasing_by all_goals ((try subst_vars) <;> simp_wf <;> omega)

/-- The `case "first"` arm of compiler.py `compile_builtin` (lines
87-91): exactly one argument, index-zero access. -/
def emit_first (args : List Node) : Except PyErr String :=
  if args.length ≠ 1 then
    .error (.typeError ("'first' takes 1 argument but " ++ toString args.length ++
      " were given!"))
  else
    match create_body "" args with
    | .error e => .error e
    | .ok body => .ok (body ++ "[0]")
termination_by (sizeOf args, 1)
decreasing_by all_goals ((try subst_vars) <;> simp_wf <;> omega)

/-- The `case "rest"` arm of compiler.py `compile_builtin` (lines
92-96): exactly one argument, tail slice. -/
def emit_rest (args : List Node) : Except PyErr String :=
  if args.length ≠ 1 then
    .error (.typeError ("'rest' takes 1 argument but " ++ toString args.length ++
      " were given!"))
  else
    match create_body "" args with
    | .error e => .error e
    | .ok body => .ok (body ++ "[1:]")
termination_by (sizeOf args, 1)
decreasing_by all_goals ((try subst_vars) <;> simp_wf <;> omega)

/-- The `case "++"` arm of compiler.py `compile_builtin` (lines
97-98). -/
def emit_append (args : List Node) : Except PyErr String :=
  match create_body ", " args with
  | .error e => .error e
  | .ok body => .ok ("list_append(" ++ body ++ ")")
termination_by (sizeOf args, 1)
decreasing_by all_goals ((try subst_vars) <;> simp_wf <;> omega)

/-- The `case "map"` arm of compiler.py `compile_builtin` (lines
99-106): exactly two arguments, a materializing `list(map(...))` call. -/
def emit_map (args : List Node) : Except PyErr String :=
  if args.length ≠ 2 then
    .error (.typeError ("'map' takes 2 arguments but " ++ toString args.length ++
      " were given!"))
  else
    emit_map_args args
termination_by (sizeOf args, 4)
decreasing_by all_goals ((try subst_vars) <;> simp_wf <;> omega)

/-- Argument destructuring of the `case "map"` arm (after the arity
check, so the fallback `IndexError` arm is unreachable). -/
def emit_map_args : List Node → Except PyErr String
  | arg1 :: arg2 :: _ => emit_map_func arg1 arg2
  | _ => .error .indexError
termination_by args => (sizeOf args, 3)
decreasing_by all_goals ((try subst_vars) <;> simp_wf <;> omega)

/-- First compile step of the `case "map"` arm: compile the function
argument. -/
def emit_map_func (arg1 arg2 : Node) : Except PyErr String :=
  match compile_obj arg1 0 with
  | .error e => .error e
  | .ok func => emit_map_collection func arg2
termination_by (sizeOf arg1 + sizeOf arg2, 2)
decreasing_by all_goals ((try subst_vars) <;> simp_wf <;> omega)

/-- Continuation of the `case "map"` arm: compile the collection
argument. -/
def emit_map_collection (func : String) (arg2 : Node) : Except PyErr String :=
  match compile_obj arg2 0 with
  | .error e => .error e
  | .ok collection => .ok ("list(map(" ++ func ++ ", " ++ collection ++ "))")
termination_by (sizeOf arg2, 1)
decreasing_by all_goals ((try subst_vars) <;> simp_wf <;> omega)

/-- The `case "filter"` arm of compiler.py `compile_builtin` (lines
107-114): exactly two arguments, a materializing `list(filter(...))`
call. -/
def emit_filter (args : List Node) : Except PyErr String :=
  if args.length ≠ 2 then
    .error (.typeError ("'filter' takes 2 arguments but " ++ toString args.length ++
      " were given!"))
  else
    emit_filter_args args
termination_by (sizeOf args, 4)
decreasing_by all_goals ((try subst_vars) <;> simp_wf <;> omega)

/-- Argument destructuring of the `case "filter"` arm (after the arity
check, so the fallback `IndexError` arm is unreachable). -/
def emit_filter_args : List Node → Except PyErr String
  | arg1 :: arg2 :: _ => emit_filter_func arg1 arg2
  | _ => .error .indexError
termination_by args => (sizeOf args, 3)
decreasing_by all_goals ((try subst_vars) <;> simp_wf <;> omega)

/-- First compile step of the `case "filter"` arm: compile the function
argument. -/
def emit_filter_func (arg1 arg2 : Node) : Except PyErr String :=
  match compile_obj arg1 0 with
  | .error e => .error e
  | .ok func => emit_filter_collection func arg2
termination_by (sizeOf arg1 + sizeOf arg2, 2)
decreasing_by all_goals ((try subst_vars) <;> simp_wf <;> omega)

/-- Continuation of the `case "filter"` arm: compile the collection
argument. -/
def emit_filter_collection (func : String) (arg2 : Node) : Except PyErr String :=
  match compile_obj arg2 0 with
  | .error e => .error e
  | .ok collection => .ok ("list(filter(" ++ func ++ ", " ++ collection ++ "))")
termination_by (sizeOf arg2, 1)
decreasing_by all_goals ((try subst_vars) <;> simp_wf <;> omega)

/-- The `case "lambda"` arm of compiler.py `compile_builtin` (lines
115-123): the parameter list (atom, or form as comma-joined group) and
the single body expression — with no arity check, so extra arguments
beyond `elements[2]` are silently ignored and missing ones raise bare
`IndexError`. -/
def emit_lambda (args : List Node) : Except PyErr String :=
  match args with
  | [] => .error .indexError
  | params :: rest1 =>
    match compile_lambda_params params with
    | .error e => .error e
    | .ok params_str => emit_lambda_body params_str rest1
termination_by (sizeOf args, 2)
decreasing_by all_goals ((try subst_vars) <;> simp_wf <;> omega)

/-- Continuation of the `case "lambda"` arm: compile the single body
expression `form.elements[2]` (missing: bare `IndexError`). -/
def emit_lambda_body (params_str : String) (rest1 : List Node) : Except PyErr String :=
  match rest1 with
  | [] => .error .indexError
  | body_arg :: _ =>
    match compile_obj body_arg 0 with
    | .error e => .error e
    | .ok body => .ok ("lambda " ++ params_str ++ ": " ++ body)
termination_by (sizeOf rest1, 0)
decreasing_by all_goals ((try subst_vars) <;> simp_wf <;> omega)

/-- The `case "if"` arm of compiler.py `compile_builtin` (lines
124-132): exactly three arguments, emitted as the expression-level
conditional. -/
def emit_if (args : List Node) : Except PyErr String :=
  if args.length ≠ 3 then
    .error (.typeError ("if requires 3 arguments but " ++ toString args.length ++
      " were given!"))
  else
    emit_if_args args
termination_by (sizeOf args, 5)
decreasing_by all_goals ((try subst_vars) <;> simp_wf <;> omega)

/-- Argument destructuring of the `case "if"` arm (after the arity
check, so the fallback `IndexError` arm is unreachable). -/
def emit_if_args : List Node → Except PyErr String
  | arg1 :: arg2 :: arg3 :: _ => emit_if_cond arg1 arg2 arg3
  | _ => .error .indexError
termination_by args => (sizeOf args, 4)
decreasing_by all_goals ((try subst_vars) <;> simp_wf <;> omega)

/-- First compile step of the `case "if"` arm: compile the condition. -/
def emit_if_cond (arg1 arg2 arg3 : Node) : Except PyErr String :=
  match compile_obj arg1 0 with
  | .error e => .error e
  | .ok condition => emit_if_then condition arg2 arg3
termination_by (sizeOf arg1 + sizeOf arg2 + sizeOf arg3, 3)
decreasing_by all_goals ((try subst_vars) <;> simp_wf <;> omega)

/-- Continuation of the `case "if"` arm: compile the then-branch. -/
def emit_if_then (condition : String) (arg2 arg3 : Node) : Except PyErr String :=
  match compile_obj arg2 0 with
  | .error e => .error e
  | .ok if_branch => emit_if_else condition if_branch arg3
termination_by (sizeOf arg2 + sizeOf arg3, 2)
decreasing_by all_goals ((try subst_vars) <;> simp_wf <;> omega)

/-- Continuation of the `case "if"` arm: compile the else-branch and
assemble the conditional expression. -/
def emit_if_else (condition if_branch : String) (arg3 : Node) : Except PyErr String :=
  match compile_obj arg3 0 with
  | .error e => .error e
  | .ok else_branch =>
    .ok ("(" ++ if_branch ++ ") if (" ++ condition ++ ") else (" ++ else_branch ++ ")")
termination_by (sizeOf arg3, 1)
decreasing_by all_goals ((try subst_vars) <;> simp_wf <;> omega)

/-- compiler.py `compile_builtin` (lines 46-133) on the form's element
list (head atom, then the arguments `islice(elements, 1, ...)`), the
Python `match` dispatch on `form.elements[0].value`: each interesting
`case` is one helper above, the infix families call `create_body` or
`create_op` directly, and the closing `return ""` is the final
catch-all (also reached for a non-text head value, which matches no
string case).  A head that is not an atom models `form.elements[0].value`
raising `AttributeError`, an empty list `IndexError`. -/
def compile_builtin : List Node → Except PyErr String
  | [] => .error .indexError
  | .form _ :: _ => .error .attributeError
  | .atom (.num _) :: _ => .ok ""
  | .atom .other :: _ => .ok ""
  | .atom (.str function_name) :: args =>
    match function_name with
    | "import" => emit_import args
    | "print" => emit_print args
    | "+" => create_body " + " args
    | "-" => create_body " - " args
    | "*" => create_body " * " args
    | "/" => create_body " / " args
    | "not" => emit_not args
    | "and" => create_body " and " args
    | "or" => create_body " or " args
    | "<" => create_op "<" args 2
    | ">" => create_op ">" args 2
    | "<=" => create_op "<=" args 2
    | ">=" => create_op ">=" args 2
    | "=" => emit_eq args
    | "list" => emit_list args
    | "first" => emit_first args
    | "rest" => emit_rest args
    | "++" => emit_append args
    | "map" => emit_map args
    | "filter" => emit_filter args
    | "lambda" => emit_lambda args
    | "if" => emit_if args
    | _ => .ok ""
termination_by elements => (sizeOf elements, 6)
decreasing_by all_goals ((try subst_vars) <;> simp_wf <;> omega)

end

/-- Modelled from the spec: the `Function` record of constructs.py
(spec §3) — name, ordered parameter names, ordered body of top-level
expressions. -/
structure Function where
  name : String
  args : List String
  body : List Node

/-- Modelled from the spec: the reserved function-definition keyword
(spec §3 "a root-level `Form` whose head atom is the reserved definition
keyword").  The spec never spells the keyword; `defun` is the fixed
placeholder spelling, and no claim below depends on the choice. -/
def function_def_keyword : String := "defun"

/-- Modelled from the spec: `is_function_def` of constructs.py — a Form
whose head atom is the reserved definition keyword. -/
def is_function_def : Node → Bool
  | .form (.atom (.str head) :: _) => head = function_def_keyword
  | _ => false

/-- Modelled from the spec: `is_import` of constructs.py — a Form whose
head atom is the reserved `import` name (spec §4.2/§6). -/
def is_import : Node → Bool
  | .form (.atom (.str head) :: _) => head = "import"
  | _ => false

/-- The `isinstance(obj, Form)` test of compiler.py `validate`. -/
def is_form_node : Node → Bool
  | .form _ => true
  | .atom _ => false

/-- compiler.py `validate` (lines 155-161), transcribed exactly: the
loop stops at the first failing object; note the second test is the
source's literal `not is_function_def(obj) and is_import(obj)`. -/
def validate : List Node → Bool × String
  | [] => (true, "")
  | obj :: rest =>
    if !is_form_node obj then
      (false, "Got unexpected object at root-level: " ++ node_text obj)
    else if !is_function_def obj && is_import obj then
      (false, "Expected only function definitions and imports at root-level but got: " ++
        node_text obj)
    else validate rest

/-- Modelled from the spec: `to_function` of constructs.py — a
`Function` built from a root-level definition Form
`(keyword name (params...) body...)` (spec §3): the second element names
it, the third element's atoms are its parameters, the remaining elements
its body.  Only the name and body reach the claims below. -/
def to_function : Node → Function
  | .form (_ :: .atom name_value :: .form params :: body) =>
    { name := name_value.text,
      args := params.map (fun p => match p with | .atom v => v.text | .form _ => ""),
      body := body }
  | .form (_ :: .atom name_value :: body) =>
    { name := name_value.text, args := [], body := body }
  | _ => { name := "", args := [], body := [] }

/-- The namespace key `form.elements[1].value` of compiler.py line 179:
a missing second element raises `IndexError`, a `Form` second element
has no `value` attribute. -/
def function_key : Node → Except PyErr String
  | .form (_ :: .atom v :: _) => .ok v.text
  | .form (_ :: .form _ :: _) => .error .attributeError
  | _ => .error .indexError

/-- A Python `dict` as an insertion-ordered association list: updating
an existing key keeps its position and replaces its value, a new key
appends. -/
def dict_set (d : List (String × α)) (k : String) (v : α) : List (String × α) :=
  if (d.lookup k).isSome then
    d.map (fun p => if p.1 = k then (k, v) else p)
  else d ++ [(k, v)]

/-- The `{**a, **b}` dict merge of compiler.py lines 177-180: start from
`a`, then write every binding of `b` in order (later writers win). -/
def dict_merge (a b : List (String × α)) : List (String × α) :=
  b.foldl (fun acc p => dict_set acc p.1 p.2) a

/-- The dict comprehension of compiler.py line 179:
`{form.elements[1].value: to_function(form) for form in objects if is_function_def(form)}`. -/
def build_local_namespace (objects : List Node) : Except PyErr (List (String × Function)) :=
  (objects.filter is_function_def).foldlM
    (fun acc form =>
      match function_key form with
      | .error e => Except.error e
      | .ok k => Except.ok (dict_set acc k (to_function form)))
    []

/-- The body builder local to compiler.py `compile_function` (lines
141-145): each body expression on its own line behind
`' ' * (indent + 1) * 4` spaces, the last one behind `return ` when
`add_return`, the expression itself compiled at `indent` (so carrying
its own `indent * 4` prefix too), all newline-joined. -/
def compile_fn_body (function : Function) (indent : Nat) (add_return : Bool) :
    Except PyErr String :=
  let total_indent := String.mk (List.replicate ((indent + 1) * 4) ' ')
  let n := function.body.length
  match function.body.enum.mapM
      (fun p =>
        match compile_obj p.2 indent with
        | .error e => Except.error e
        | .ok compiled =>
          Except.ok (total_indent ++ (if add_return && p.1 = n - 1 then "return " else "") ++ compiled)) with
  | .error e => .error e
  | .ok lines => .ok (String.intercalate "\n" lines)

/-- compiler.py `compile_function` (lines 136-152): the reserved `main`
name becomes the program-entry block with no returns, any other name a
`def` over the comma-joined parameters whose last body expression gets
an explicit `return`; both end with the closing newline of line 152.
The `logger.error` warning on builtin redefinition (lines 138-139) is a
side channel that never changes the returned text and is not part of the
result. -/
def compile_function (function : Function) (indent : Nat) : Except PyErr String :=
  if function.name = "main" then
    match compile_fn_body function indent false with
    | .error e => .error e
    | .ok body => .ok ("if __name__ == '__main__':\n" ++ body ++ "\n" ++ "\n")
  else
    match compile_fn_body function indent true with
    | .error e => .error e
    | .ok body =>
      .ok ("def " ++ function.name ++ "(" ++ String.intercalate ", " function.args ++ "):\n" ++
        body ++ "\n")

/-- compiler.py `convert_to_output` (lines 189-195): the fixed prelude
line, every namespace function emitted at indent 0 each followed
by a blank line, and — in REPL mode only — every non-definition
top-level object compiled and newline-joined, closed by two newlines. -/
def convert_to_output (is_repl : Bool) (ns : List (String × Function)) (objects : List Node) :
    Except PyErr String :=
  match ns.foldlM
      (fun acc p =>
        match compile_function p.2 0 with
        | .error e => Except.error e
        | .ok t => Except.ok (acc ++ t ++ "\n"))
      "from lisp_core import *\n\n" with
  | .error e => .error e
  | .ok output =>
    if is_repl then
      match (objects.filter (fun o => !is_function_def o)).mapM
          (fun o => (compile_obj o 0 : Except PyErr String)) with
      | .error e => .error e
      | .ok compiled => .ok (output ++ String.intercalate "\n" compiled ++ "\n\n")
    else .ok output

/-- compiler.py `compile_program` (lines 164-186).  The input syntax
tree is opaque (spec §6); `children` stands for the objects that
`to_object` (constructs.py, not under src/) produces from
`ast.children`, already in converted `Node` form, so the empty-tree
test is the emptiness of that list.  The returned triple is Python's
`(bool, str, dict)`; `.error` carries an exception escaping the call. -/
def compile_program (children : List Node) (ext_funcs : List (String × Function))
    (is_repl : Bool) : Except PyErr (Bool × String × List (String × Function)) :=
  if children.isEmpty then .ok (true, "", [])
  else
    let objects := children
    let validation := validate objects
    if !validation.1 then .ok (false, validation.2, [])
    else
      match build_local_namespace objects with
      | .error e => .error e
      | .ok local_defs =>
        let ns := dict_merge ext_funcs local_defs
        if !is_repl && (ns.lookup "main").isNone then
          .ok (false, "Function 'main' is not defined!", [])
        else
          match convert_to_output is_repl ns objects with
          | .error e => .error e
          | .ok output => .ok (true, output, ns)

/-! Helper lemmas: dispatch equations of `infer_type`, and the algebra of
`infer_element_types`. -/

lemma infer_type_on_atom (value : Literal) (ns : List (String × LType)) :
    infer_type (.atom value) ns = some (infer_type_atom value ns) := by
  simp [infer_type]

lemma infer_type_on_empty_form (ns : List (String × LType)) :
    infer_type (.form []) ns = none := by
  simp [infer_type]

lemma infer_type_on_form_head (inner : List Node) (rest : List Node)
    (ns : List (String × LType)) :
    infer_type (.form (.form inner :: rest)) ns = none := by
  simp [infer_type]

lemma infer_type_on_list_form (args : List Node) (ns : List (String × LType))
    (h : ns.lookup "list" = none) :
    infer_type (.form (.atom (.str "list") :: args)) ns = infer_form_list ns args := by
  simp [infer_type, h]
  exact fun hmem => absurd (by decide) hmem

lemma infer_type_on_append_form (args : List Node) (ns : List (String × LType))
    (h : ns.lookup "++" = none) :
    infer_type (.form (.atom (.str "++") :: args)) ns = infer_form_append ns args := by
  simp [infer_type, h]
  exact fun hmem => absurd (by decide) hmem

lemma infer_type_on_first_form (args : List Node) (ns : List (String × LType))
    (h : ns.lookup "first" = none) :
    infer_type (.form (.atom (.str "first") :: args)) ns = infer_form_first ns args := by
  simp [infer_type, h]
  exact fun hmem => absurd (by decide) hmem

lemma infer_type_on_rest_form (args : List Node) (ns : List (String × LType))
    (h : ns.lookup "rest" = none) :
    infer_type (.form (.atom (.str "rest") :: args)) ns = infer_form_rest ns args := by
  simp [infer_type, h]
  exact fun hmem => absurd (by decide) hmem

lemma infer_type_on_if_form (args : List Node) (ns : List (String × LType))
    (h : ns.lookup "if" = none) :
    infer_type (.form (.atom (.str "if") :: args)) ns = infer_form_if ns args := by
  simp [infer_type, h]
  exact fun hmem => absurd (by decide) hmem

lemma ltype_sizeOf_pos (t : LType) : 0 < sizeOf t := by
  cases t <;> simp

lemma iet_inner_error_of_shape (t1 t2 : LType)
    (h : (is_list t1 && (is_list t2 || is_empty_list t2 || is_possibly_empty t2)) = false) :
    iet_inner t1 t2 = .error "" := by
  cases t1 <;> cases t2 <;> simp_all [iet_inner, is_list, is_empty_list, is_possibly_empty]

lemma iet_inner_ok_cases {t1 t2 r : LType} (h : iet_inner t1 t2 = .ok r) :
    (∃ a b u, t1 = .list a ∧ t2 = .list b ∧ infer_element_types a b = .ok u ∧ r = .list u) ∨
    (∃ a, t1 = .list a ∧ t2 = .emptyList ∧ r = .possibleEmptyList a) ∨
    (∃ a b u, t1 = .list a ∧ t2 = .possibleEmptyList b ∧ infer_element_types a b = .ok u ∧
      r = .possibleEmptyList a) := by
  cases t1 with
  | list a =>
    cases t2 with
    | list b =>
      cases hu : infer_element_types a b with
      | ok u =>
        simp [iet_inner, hu] at h
        exact Or.inl ⟨a, b, u, rfl, rfl, hu, h.symm⟩
      | error m => simp [iet_inner, hu] at h
    | emptyList =>
      simp [iet_inner] at h
      exact Or.inr (Or.inl ⟨a, rfl, rfl, h.symm⟩)
    | possibleEmptyList b =>
      cases hu : infer_element_types a b with
      | ok u =>
        simp [iet_inner, hu] at h
        exact Or.inr (Or.inr ⟨a, b, u, rfl, rfl, hu, h.symm⟩)
      | error m => simp [iet_inner, hu] at h
    | string => simp [iet_inner] at h
    | bool => simp [iet_inner] at h
    | number => simp [iet_inner] at h
    | unrecognized => simp [iet_inner] at h
  | string => simp [iet_inner] at h
  | bool => simp [iet_inner] at h
  | number => simp [iet_inner] at h
  | emptyList => simp [iet_inner] at h
  | possibleEmptyList a => simp [iet_inner] at h
  | unrecognized => simp [iet_inner] at h

lemma iet_inner_ok_list {t1 t2 r : LType} (h : iet_inner t1 t2 = .ok r) :
    ∃ a, t1 = .list a := by
  rcases iet_inner_ok_cases h with ⟨a, b, u, ht, _⟩ | ⟨a, ht, _⟩ | ⟨a, b, u, ht, _⟩ <;>
    exact ⟨a, ht⟩

lemma infer_element_types_ok_comm_aux :
    ∀ (n : Nat) (t1 t2 r : LType), sizeOf t1 + sizeOf t2 ≤ n →
      (infer_element_types t1 t2 = .ok r ↔ infer_element_types t2 t1 = .ok r) := by
  intro n
  induction n with
  | zero =>
    intro t1 t2 r h
    have h1 := ltype_sizeOf_pos t1
    have h2 := ltype_sizeOf_pos t2
    omega
  | succ n ih =>
    intro t1 t2 r hle
    cases h21 : iet_inner t2 t1 with
    | ok r21 =>
      cases h12 : iet_inner t1 t2 with
      | ok r12 =>
        obtain ⟨e1, ht1⟩ := iet_inner_ok_list h12
        obtain ⟨e2, ht2⟩ := iet_inner_ok_list h21
        subst ht1 ht2
        cases hu : infer_element_types e2 e1 with
        | error m => simp [iet_inner, hu] at h21
        | ok u =>
          cases hv : infer_element_types e1 e2 with
          | error m => simp [iet_inner, hv] at h12
          | ok v =>
            have hsz : sizeOf e1 + sizeOf e2 ≤ n := by
              simp at hle
              omega
            have hcomm := (ih e1 e2 v hsz).mp hv
            have huv : u = v := by
              rw [hu] at hcomm
              exact Except.ok.inj hcomm
            simp [infer_element_types, iet_inner, hu, hv, huv]
      | error m12 =>
        simp [infer_element_types, h21, h12]
    | error m21 =>
      cases h12 : iet_inner t1 t2 with
      | ok r12 => simp [infer_element_types, h21, h12]
      | error m12 =>
        simp only [infer_element_types, h21, h12]
        by_cases he : t1 = t2
        · subst he
          simp
        · simp [he, Ne.symm he]

lemma infer_element_types_comm (t1 t2 r : LType) :
    infer_element_types t1 t2 = .ok r ↔ infer_element_types t2 t1 = .ok r :=
  infer_element_types_ok_comm_aux (sizeOf t1 + sizeOf t2) t1 t2 r le_rfl

lemma infer_element_types_self : ∀ t : LType, infer_element_types t t = .ok t := by
  intro t
  induction t <;> simp_all [infer_element_types, iet_inner]

lemma unify_list_list (a b : LType) :
    (∀ e, infer_element_types a b = .ok e →
      infer_element_types (.list a) (.list b) = .ok (.list e)) ∧
    ((∃ m, infer_element_types a b = .error m) →
      infer_element_types (.list a) (.list b) =
        .error (incompatible_msg (.list a) (.list b))) := by
  constructor
  · intro e he
    have hba := (infer_element_types_comm a b e).mp he
    simp [infer_element_types, iet_inner, hba]
  · rintro ⟨m, hm⟩
    cases hba : infer_element_types b a with
    | ok u =>
      have := (infer_element_types_comm b a u).mp hba
      rw [hm] at this
      cases this
    | error m2 =>
      have hne : a ≠ b := by
        intro he
        subst he
        rw [infer_element_types_self a] at hm
        cases hm
      simp [infer_element_types, iet_inner, hba, hm, hne]

lemma unify_list_empty (a : LType) :
    infer_element_types (.list a) .emptyList = .ok (.possibleEmptyList a) ∧
    infer_element_types .emptyList (.list a) = .ok (.possibleEmptyList a) := by
  constructor <;> simp [infer_element_types, iet_inner]

lemma unify_list_pel (a b : LType) :
    (∀ e, infer_element_types a b = .ok e →
      infer_element_types (.list a) (.possibleEmptyList b) = .ok (.possibleEmptyList a) ∧
      infer_element_types (.possibleEmptyList b) (.list a) = .ok (.possibleEmptyList a)) ∧
    ((∃ m, infer_element_types a b = .error m) →
      infer_element_types (.list a) (.possibleEmptyList b) =
        .error (incompatible_msg (.list a) (.possibleEmptyList b)) ∧
      infer_element_types (.possibleEmptyList b) (.list a) =
        .error (incompatible_msg (.possibleEmptyList b) (.list a))) := by
  constructor
  · intro e he
    constructor <;> simp [infer_element_types, iet_inner, he]
  · rintro ⟨m, hm⟩
    constructor <;> simp [infer_element_types, iet_inner, hm]

lemma unify_no_rule_fail (t1 t2 : LType)
    (h12 : (is_list t1 && (is_list t2 || is_empty_list t2 || is_possibly_empty t2)) = false)
    (h21 : (is_list t2 && (is_list t1 || is_empty_list t1 || is_possibly_empty t1)) = false)
    (hne : t1 ≠ t2) :
    infer_element_types t1 t2 = .error (incompatible_msg t1 t2) := by
  have e1 := iet_inner_error_of_shape t1 t2 h12
  have e2 := iet_inner_error_of_shape t2 t1 h21
  simp [infer_element_types, e1, e2, hne]

/-! Small evaluation facts reused by several claim proofs. -/

lemma infer_num_atom (n : Int) (ns : List (String × LType)) :
    infer_type (.atom (.num n)) ns = some (true, .ty .number) := by
  simp [infer_type, infer_type_atom]

lemma infer_true_atom (ns : List (String × LType)) :
    infer_type (.atom (.str "true")) ns = some (true, .ty .bool) := by
  simp +decide [infer_type, infer_type_atom, is_string_literal, starts_with_quote,
    ends_with_quote, is_bool_literal]

/-! The claims. -/

/-- C10: for every indentation level, emitting a `Form` with no elements
succeeds and returns the empty string — no indentation prefix and no
error — even though such a node has no operator (compiler.py lines 33-34
return `""` before the indentation prefix is attached). -/
theorem c10_empty_form_emits_empty_string (indent : Nat) :
    compile_obj (.form []) indent = .ok "" := by
  simp [compile_obj]

/-- C5 counterexample: for an `Atom` whose raw value is neither a string
nor a numeric value, type_checker.py line 89 returns
`(False, UnrecognizedType())` — a failure — so the claim that
`Unrecognized` comes back as a non-error (success) result is false at
this concrete input. -/
theorem c5_counterexample :
    infer_type (.atom .other) [] = some (false, .ty .unrecognized) := by
  simp [infer_type, infer_type_atom]

/-- C5 (amended): for every `Atom` whose carried value is neither a
string nor a numeric value, `infer_type` returns `Unrecognized` as the
payload of a failure result (result flag `False`), not as a success. -/
theorem c5_unrecognized_is_failure (ns : List (String × LType)) :
    infer_type (.atom .other) ns = some (false, .ty .unrecognized) := by
  simp [infer_type, infer_type_atom]

/-- C6 counterexample: at the concrete form whose only element is an
empty inner form, type inference returns `none` — the Python
`infer_type` falls off the end and returns `None`, producing no
diagnostic at all — refuting the claim that both inference and emission
fail with a syntax error naming the node (emission does). -/
theorem c6_counterexample :
    infer_type (.form [.form []]) [] = none ∧
    compile_obj (.form [.form []]) 0 =
      .error (.syntaxError "Expected Atom as first element of Form, but got Form(elements=[])") := by
  constructor
  · simp [infer_type]
  · simp [compile_obj, node_text, node_list_text]

/-- C6 (amended): for every non-empty `Form` whose first element is
itself a `Form`, code emission fails with a `SyntaxError` identifying
the offending node, while type inference returns no result at all (the
Python `infer_type` `Form` branch falls off the end and returns `None`)
rather than reporting a syntax error. -/
theorem c6_form_headed_form (inner rest : List Node) (indent : Nat)
    (ns : List (String × LType)) :
    compile_obj (.form (.form inner :: rest)) indent =
      .error (.syntaxError ("Expected Atom as first element of Form, but got " ++
        node_text (.form inner))) ∧
    infer_type (.form (.form inner :: rest)) ns = none := by
  constructor
  · simp [compile_obj]
  · simp [infer_type]

/-- C8: list-type unification is symmetric — for all types `t1`, `t2`,
`infer_element_types t1 t2` and `infer_element_types t2 t1` either both
succeed with structurally equal result types or both fail. -/
theorem c8_unification_symmetric (t1 t2 : LType) :
    (∀ r, infer_element_types t1 t2 = .ok r ↔ infer_element_types t2 t1 = .ok r) ∧
    ((∃ m, infer_element_types t1 t2 = .error m) ↔
      (∃ m, infer_element_types t2 t1 = .error m)) := by
  constructor
  · exact fun r => infer_element_types_comm t1 t2 r
  · constructor <;> rintro ⟨m, hm⟩
    · cases h : infer_element_types t2 t1 with
      | ok u =>
        exfalso
        have := (infer_element_types_comm t2 t1 u).mp h
        rw [hm] at this
        cases this
      | error m2 => exact ⟨m2, rfl⟩
    · cases h : infer_element_types t1 t2 with
      | ok u =>
        exfalso
        have := (infer_element_types_comm t1 t2 u).mp h
        rw [hm] at this
        cases this
      | error m2 => exact ⟨m2, rfl⟩

/-- C8 witness: the symmetry theorem applied at the concrete pair
`List(Number)`, `EmptyList`. -/
theorem c8_witness :
    infer_element_types .emptyList (.list .number) = .ok (.possibleEmptyList .number) :=
  ((c8_unification_symmetric (.list .number) .emptyList).1 (.possibleEmptyList .number)).mp
    (by simp [infer_element_types, iet_inner])

/-- C3 counterexample: the claimed rule "`List(a)` and
`PossibleEmptyList(b)` unify to `PossibleEmptyList(unify(a,b))`" is
false.  With `a = List(Number)` and `b = EmptyList` the inner
unification gives `unify(a,b) = PossibleEmptyList(Number)`, so the
claim demands `PossibleEmptyList(PossibleEmptyList(Number))`; the code
(type_checker.py line 47) returns `PossibleEmptyList(t1.element)` —
`PossibleEmptyList(List(Number))` — discarding the unified element
type. -/
theorem c3_counterexample :
    infer_element_types (.list .number) .emptyList = .ok (.possibleEmptyList .number) ∧
    infer_element_types (.list (.list .number)) (.possibleEmptyList .emptyList) =
      .ok (.possibleEmptyList (.list .number)) ∧
    (LType.possibleEmptyList (.list .number) ≠
      .possibleEmptyList (.possibleEmptyList .number)) := by
  refine ⟨by simp [infer_element_types, iet_inner], ?_, by decide⟩
  simp [infer_element_types, iet_inner]

/-- C3 (amended): list-type unification satisfies: `List(a)` and
`List(b)` unify recursively on elements into `List(unify(a,b))`, failing
with both names if the elements are incompatible; `List(a)` and
`EmptyList` give `PossibleEmptyList(a)` in either order; `List(a)` and
`PossibleEmptyList(b)` require `a` and `b` to unify and then give
`PossibleEmptyList(a)` — the `List` side's element type rather than the
claimed `PossibleEmptyList(unify(a,b))` — failing with both names
otherwise; structurally equal types unify to themselves; all other
combinations fail with both type names in the message.  The spec's
concrete examples hold as stated. -/
theorem c3_unification_rules :
    (∀ a b e, infer_element_types a b = .ok e →
      infer_element_types (.list a) (.list b) = .ok (.list e)) ∧
    (∀ a b m, infer_element_types a b = .error m →
      infer_element_types (.list a) (.list b) =
        .error (incompatible_msg (.list a) (.list b))) ∧
    (∀ a, infer_element_types (.list a) .emptyList = .ok (.possibleEmptyList a) ∧
      infer_element_types .emptyList (.list a) = .ok (.possibleEmptyList a)) ∧
    (∀ a b e, infer_element_types a b = .ok e →
      infer_element_types (.list a) (.possibleEmptyList b) = .ok (.possibleEmptyList a) ∧
      infer_element_types (.possibleEmptyList b) (.list a) = .ok (.possibleEmptyList a)) ∧
    (∀ a b m, infer_element_types a b = .error m →
      infer_element_types (.list a) (.possibleEmptyList b) =
        .error (incompatible_msg (.list a) (.possibleEmptyList b)) ∧
      infer_element_types (.possibleEmptyList b) (.list a) =
        .error (incompatible_msg (.possibleEmptyList b) (.list a))) ∧
    (∀ t, infer_element_types t t = .ok t) ∧
    (∀ t1 t2,
      (is_list t1 && (is_list t2 || is_empty_list t2 || is_possibly_empty t2)) = false →
      (is_list t2 && (is_list t1 || is_empty_list t1 || is_possibly_empty t1)) = false →
      t1 ≠ t2 →
      infer_element_types t1 t2 = .error (incompatible_msg t1 t2)) ∧
    infer_element_types (.list .number) .emptyList = .ok (.possibleEmptyList .number) ∧
    infer_element_types (.list .number) (.possibleEmptyList .number) =
      .ok (.possibleEmptyList .number) ∧
    infer_element_types (.list .number) (.list .string) =
      .error (incompatible_msg (.list .number) (.list .string)) := by
  refine ⟨?_, ?_, ?_, ?_, ?_, infer_element_types_self, unify_no_rule_fail, ?_, ?_, ?_⟩
  · exact fun a b e he => (unify_list_list a b).1 e he
  · exact fun a b m hm => (unify_list_list a b).2 ⟨m, hm⟩
  · exact unify_list_empty
  · exact fun a b e he => (unify_list_pel a b).1 e he
  · exact fun a b m hm => (unify_list_pel a b).2 ⟨m, hm⟩
  · simp [infer_element_types, iet_inner]
  · simp [infer_element_types, iet_inner]
  · simp [infer_element_types, iet_inner]

/-- C3 witness: the unification rules applied at concrete types —
`List(Number)` with itself, and `List(Number)` with
`PossibleEmptyList(String)` (incompatible elements). -/
theorem c3_witness :
    infer_element_types (.list .number) (.list .number) = .ok (.list .number) ∧
    infer_element_types (.list .number) (.possibleEmptyList .string) =
      .error (incompatible_msg (.list .number) (.possibleEmptyList .string)) := by
  constructor
  · exact c3_unification_rules.1 .number .number .number (infer_element_types_self .number)
  · exact (c3_unification_rules.2.2.2.2.1 .number .string
      (incompatible_msg .number .string)
      (by simp [infer_element_types, iet_inner])).1

/-- C7: the `Atom` rules of `infer_type`, in priority order — a string
literal delimited by double quotes (including the empty one) infers to
`String`; otherwise the literals `true`/`false` infer to `Bool`;
otherwise a name bound in the namespace infers to its bound type;
otherwise a value parseable as a floating-point or integer number
(`py_float_ok`/`py_int_ok` model CPython's `float`/`int` acceptance)
infers to `Number`; any other textual value fails with
`Cannot infer type of '<value>'`. -/
theorem c7_atom_priority_rules (s : String) (ns : List (String × LType)) :
    (is_string_literal s = true →
      infer_type (.atom (.str s)) ns = some (true, .ty .string)) ∧
    (is_string_literal s = false → is_bool_literal s = true →
      infer_type (.atom (.str s)) ns = some (true, .ty .bool)) ∧
    (∀ t, is_string_literal s = false → is_bool_literal s = false →
      ns.lookup s = some t →
      infer_type (.atom (.str s)) ns = some (true, .ty t)) ∧
    (is_string_literal s = false → is_bool_literal s = false →
      ns.lookup s = none → (py_float_ok s || py_int_ok s) = true →
      infer_type (.atom (.str s)) ns = some (true, .ty .number)) ∧
    (is_string_literal s = false → is_bool_literal s = false →
      ns.lookup s = none → py_float_ok s = false → py_int_ok s = false →
      infer_type (.atom (.str s)) ns =
        some (false, .msg ("Cannot infer type of '" ++ s ++ "'"))) := by
  refine ⟨?_, ?_, ?_, ?_, ?_⟩
  · intro h1
    simp [infer_type, infer_type_atom, h1]
  · intro h1 h2
    simp [infer_type, infer_type_atom, h1, h2]
  · intro t h1 h2 h3
    simp [infer_type, infer_type_atom, h1, h2, h3]
  · intro h1 h2 h3 h4
    rcases Bool.or_eq_true_iff.mp h4 with hf | hi
    · simp [infer_type, infer_type_atom, h1, h2, h3, hf]
    · cases hf : py_float_ok s <;>
        simp [infer_type, infer_type_atom, h1, h2, h3, hf, hi]
  · intro h1 h2 h3 h4 h5
    simp [infer_type, infer_type_atom, h1, h2, h3, h4, h5]

/-- C7 witness: the priority rules applied at concrete atoms — the
string literal `"hi"`, the boolean word `true`, a bound name `x`, the
unbound numeric texts `3.5` and `42`, and the unbound non-numeric name
`foo`. -/
theorem c7_witness :
    infer_type (.atom (.str "\"hi\"")) [] = some (true, .ty .string) ∧
    infer_type (.atom (.str "true")) [("true", .number)] = some (true, .ty .bool) ∧
    infer_type (.atom (.str "x")) [("x", .list .bool)] = some (true, .ty (.list .bool)) ∧
    infer_type (.atom (.str "3.5")) [] = some (true, .ty .number) ∧
    infer_type (.atom (.str "42")) [] = some (true, .ty .number) ∧
    infer_type (.atom (.str "foo")) [] =
      some (false, .msg ("Cannot infer type of '" ++ "foo" ++ "'")) := by
  refine ⟨(c7_atom_priority_rules "\"hi\"" []).1 (by decide),
    (c7_atom_priority_rules "true" [("true", .number)]).2.1 (by decide) (by decide),
    (c7_atom_priority_rules "x" [("x", .list .bool)]).2.2.1 (.list .bool)
      (by decide) (by decide) (by decide),
    (c7_atom_priority_rules "3.5" []).2.2.2.1 (by decide) (by decide) (by decide) (by decide),
    (c7_atom_priority_rules "42" []).2.2.2.1 (by decide) (by decide) (by decide) (by decide),
    (c7_atom_priority_rules "foo" []).2.2.2.2 (by decide) (by decide) (by decide)
      (by decide) (by decide)⟩

/-- C4 counterexample: in `(list 1 "a")` the offending argument `"a"` is
the second argument (1-based), but the failure message reports position
`1` — the loop index `i = 2` minus one, i.e. the 0-based position —
refuting the claim that the message reports the argument's 1-based
position. -/
theorem c4_counterexample :
    infer_type (.form [.atom (.str "list"), .atom (.num 1), .atom (.str "\"a\"")]) [] =
      some (false, .msg
        "List 1-th element has type 'String' which is not compatible with inferred type 'Number'") := by
  have ha : infer_type (.atom (.str "\"a\"")) ([] : List (String × LType)) =
      some (true, .ty .string) := by
    simp +decide [infer_type, infer_type_atom, is_string_literal, starts_with_quote,
      ends_with_quote]
  rw [infer_type_on_list_form [.atom (.num 1), .atom (.str "\"a\"")] [] rfl]
  simp [infer_form_list, infer_num_atom, infer_list_loop, ha, infer_element_types,
    iet_inner, LType.name]
  decide

/-- C4 (amended): `(list)` with zero arguments infers to `EmptyList`;
with arguments, the first argument's type seeds the fold
`infer_list_loop`, entered at element index 2 (the seed sits at element
index 1, so the element at index `i` is the `i`-th argument counting
from 1); when the fold meets an argument whose type does not unify with
the accumulated element type, inference fails with a message reporting
`i - 1` — the argument's 0-based position, not the claimed 1-based
one — together with both conflicting type names. -/
theorem c4_list_rule (ns : List (String × LType)) (hns : ns.lookup "list" = none) :
    (infer_type (.form [.atom (.str "list")]) ns = some (true, .ty .emptyList)) ∧
    (∀ seed args et, infer_type seed ns = some (true, .ty et) →
      infer_type (.form (.atom (.str "list") :: seed :: args)) ns =
        infer_list_loop ns args et 2) ∧
    (∀ element rest et it i m,
      infer_type element ns = some (true, .ty it) →
      infer_element_types (.list et) (.list it) = .error m →
      infer_list_loop ns (element :: rest) et i =
        some (false, .msg ("List " ++ toString (i - 1) ++ "-th element has type '" ++
          it.name ++ "' which is not compatible with inferred type '" ++
          et.name ++ "'"))) := by
  refine ⟨?_, ?_, ?_⟩
  · rw [infer_type_on_list_form [] ns hns]
    simp [infer_form_list]
  · intro seed args et hseed
    rw [infer_type_on_list_form (seed :: args) ns hns]
    simp [infer_form_list, hseed]
  · intro element rest et it i m he hu
    simp [infer_list_loop, he, hu]

/-- C4 witness: the list rule applied at the concrete form
`(list 1 "a")` — the seed `1` has type `Number`, the fold starts at
element index 2, and the argument `"a"` of type `String` fails there
with the position printed as `2 - 1`. -/
theorem c4_witness :
    infer_type (.form [.atom (.str "list"), .atom (.num 1), .atom (.str "\"a\"")]) [] =
      infer_list_loop [] [.atom (.str "\"a\"")] .number 2 ∧
    infer_list_loop [] [.atom (.str "\"a\"")] .number 2 =
      some (false, .msg ("List " ++ toString (2 - 1) ++ "-th element has type '" ++
        LType.string.name ++ "' which is not compatible with inferred type '" ++
        LType.number.name ++ "'")) := by
  constructor
  · exact (c4_list_rule [] rfl).2.1 (.atom (.num 1)) [.atom (.str "\"a\"")] .number
      (infer_num_atom 1 [])
  · exact (c4_list_rule [] rfl).2.2 (.atom (.str "\"a\"")) [] .number .string 2
      (incompatible_msg (.list .number) (.list .string))
      (by simp +decide [infer_type, infer_type_atom, is_string_literal, starts_with_quote,
        ends_with_quote])
      (by simp [infer_element_types, iet_inner])

/-- C2 counterexample: in `(if true (list 1) (rest (list "s")))` the
branches infer to `List(Number)` and `PossibleEmptyList(String)` — an
unequal pair whose element types differ, so the claim ("the other is
`EmptyList` or `PossibleEmptyList(T)`" for the same `T`, "in every other
unequal case inference fails") demands an error naming both types — yet
inference succeeds with `PossibleEmptyList(Number)`: the code never
compares the element types in this branch (type_checker.py lines
181-187). -/
theorem c2_counterexample :
    infer_type (.form [.atom (.str "list"), .atom (.num 1)]) [] =
      some (true, .ty (.list .number)) ∧
    infer_type (.form [.atom (.str "rest"),
      .form [.atom (.str "list"), .atom (.str "\"s\"")]]) [] =
      some (true, .ty (.possibleEmptyList .string)) ∧
    infer_type (.form [.atom (.str "if"), .atom (.str "true"),
      .form [.atom (.str "list"), .atom (.num 1)],
      .form [.atom (.str "rest"), .form [.atom (.str "list"), .atom (.str "\"s\"")]]]) [] =
      some (true, .ty (.possibleEmptyList .number)) := by
  have hs : infer_type (.form [.atom (.str "list"), .atom (.str "\"s\"")])
      ([] : List (String × LType)) = some (true, .ty (.list .string)) := by
    rw [infer_type_on_list_form [.atom (.str "\"s\"")] [] rfl]
    simp +decide [infer_form_list, infer_list_loop, infer_type, infer_type_atom,
      is_string_literal, starts_with_quote, ends_with_quote]
  have h1 : infer_type (.form [.atom (.str "list"), .atom (.num 1)])
      ([] : List (String × LType)) = some (true, .ty (.list .number)) := by
    rw [infer_type_on_list_form [.atom (.num 1)] [] rfl]
    simp [infer_form_list, infer_num_atom, infer_list_loop]
  have h2 : infer_type (.form [.atom (.str "rest"),
      .form [.atom (.str "list"), .atom (.str "\"s\"")]]) ([] : List (String × LType)) =
      some (true, .ty (.possibleEmptyList .string)) := by
    rw [infer_type_on_rest_form [.form [.atom (.str "list"), .atom (.str "\"s\"")]] [] rfl]
    simp [infer_form_rest, hs]
  refine ⟨h1, h2, ?_⟩
  rw [infer_type_on_if_form [.atom (.str "true"),
    .form [.atom (.str "list"), .atom (.num 1)],
    .form [.atom (.str "rest"), .form [.atom (.str "list"), .atom (.str "\"s\"")]]] [] rfl]
  simp [infer_form_if, infer_true_atom, infer_if_true_branch, h1,
    infer_if_false_branch, h2, infer_if_branches, is_list, is_empty_list,
    is_possibly_empty]

/-- C2 (amended): for `(if c t e)` with condition type `ct` and branch
types `tt`, `ft` (all three sub-inferences succeeding, the head not
shadowed in the namespace): a condition type other than exactly `Bool`
fails naming the actual type; structurally equal branch types are the
result; unequal branch types where one is `List(T)` and the other is
`EmptyList` or `PossibleEmptyList(U)` — for ANY `U`, the element types
are never compared — give `PossibleEmptyList(T)` with `T` the `List`
side's element type; every other unequal pair fails naming both
types. -/
theorem c2_if_rule (c t e : Node) (ns : List (String × LType)) (ct tt ft : LType)
    (hns : ns.lookup "if" = none)
    (hc : infer_type c ns = some (true, .ty ct))
    (ht : infer_type t ns = some (true, .ty tt))
    (he : infer_type e ns = some (true, .ty ft)) :
    infer_type (.form [.atom (.str "if"), c, t, e]) ns =
      (if ct ≠ .bool then
        some (false, .msg ("Expected if condition to have type 'bool' but got '" ++
          ct.name ++ "'"))
      else if tt = ft then some (true, .ty tt)
      else
        match tt, ft with
        | .list a, .emptyList => some (true, .ty (.possibleEmptyList a))
        | .list a, .possibleEmptyList _ => some (true, .ty (.possibleEmptyList a))
        | .emptyList, .list b => some (true, .ty (.possibleEmptyList b))
        | .possibleEmptyList _, .list b => some (true, .ty (.possibleEmptyList b))
        | _, _ =>
          some (false, .msg ("Incompatible types in if branches: '" ++ tt.name ++
            "' and '" ++ ft.name ++ "'"))) := by
  rw [infer_type_on_if_form [c, t, e] ns hns]
  by_cases hct : ct = LType.bool
  · subst hct
    simp only [infer_form_if, hc, Bool.not_true, Bool.false_eq_true, if_false,
      ne_eq, not_true_eq_false, ite_false]
    simp [infer_if_true_branch, ht, infer_if_false_branch, he]
    by_cases htf : tt = ft
    · subst htf
      simp [infer_if_branches]
    · cases tt <;> cases ft <;>
        simp_all [infer_if_branches, is_list, is_empty_list, is_possibly_empty]
  · simp [infer_form_if, hc, hct]

/-- C2 witness: the `if` rule applied at the concrete form
`(if true (list 1) (list "a"))`, whose branches `List(Number)` and
`List(String)` are unequal and not list-vs-empty, so inference fails
naming both types. -/
theorem c2_witness :
    infer_type (.form [.atom (.str "if"), .atom (.str "true"),
      .form [.atom (.str "list"), .atom (.num 1)],
      .form [.atom (.str "list"), .atom (.str "\"a\"")]]) [] =
      some (false, .msg
        "Incompatible types in if branches: 'List(Number)' and 'List(String)'") := by
  have h1 : infer_type (.form [.atom (.str "list"), .atom (.num 1)])
      ([] : List (String × LType)) = some (true, .ty (.list .number)) := by
    rw [infer_type_on_list_form [.atom (.num 1)] [] rfl]
    simp [infer_form_list, infer_num_atom, infer_list_loop]
  have h2 : infer_type (.form [.atom (.str "list"), .atom (.str "\"a\"")])
      ([] : List (String × LType)) = some (true, .ty (.list .string)) := by
    rw [infer_type_on_list_form [.atom (.str "\"a\"")] [] rfl]
    simp +decide [infer_form_list, infer_list_loop, infer_type, infer_type_atom,
      is_string_literal, starts_with_quote, ends_with_quote]
  have hr := c2_if_rule (.atom (.str "true"))
    (.form [.atom (.str "list"), .atom (.num 1)])
    (.form [.atom (.str "list"), .atom (.str "\"a\"")]) []
    .bool (.list .number) (.list .string) rfl (infer_true_atom []) h1 h2
  rw [hr]
  simp [LType.name]

/-- C9 counterexample: `lambda` and `++` are fixed-arity builtins (the
spec gives `lambda` exactly 2 arguments — parameter list and body — and
`++` a list-append call over its two arguments), yet compiler.py checks
neither: `lambda` invoked with 3 arguments succeeds, silently ignoring
the extra argument, and the `++` case (lines 97-98) comma-joins however
many arguments it gets — 3 or 1 — into a `list_append` call, instead of
failing with a message naming the operator and the counts. -/
theorem c9_counterexample :
    compile_builtin [.atom (.str "lambda"), .atom (.str "x"), .atom (.str "y"),
      .atom (.str "z")] = .ok "lambda x: y" ∧
    compile_builtin [.atom (.str "++"), .atom (.num 1), .atom (.num 2),
      .atom (.num 3)] = .ok "list_append(1, 2, 3)" ∧
    compile_builtin [.atom (.str "++"), .atom (.num 1)] = .ok "list_append(1)" := by
  have h1 : toString (1 : Int) = "1" := by decide
  have h2 : toString (2 : Int) = "2" := by decide
  have h3 : toString (3 : Int) = "3" := by decide
  refine ⟨?_, ?_, ?_⟩
  · simp [compile_builtin, emit_lambda, emit_lambda_body, compile_lambda_params,
      compile_obj, current_indent_str, Literal.text]
  · simp [compile_builtin, emit_append, create_body, create_body_rest, compile_obj,
      current_indent_str, Literal.text, h1, h2, h3]
  · simp [compile_builtin, emit_append, create_body, compile_obj,
      current_indent_str, Literal.text, h1]

/-- C9 (amended): every fixed-arity builtin EXCEPT `lambda` and `++` —
`not`, `<`, `>`, `<=`, `>=`, `=`, `first`, `rest`, `map`, `filter`,
`if` — rejects a wrong argument count before compiling any argument,
with a `TypeError` naming the operator, the expected count and the
actual count; `lambda` and `++` perform no arity check, as the final
conjuncts show: `(lambda x y z)` succeeds ignoring the extra argument,
and `(++ 1 2 3)` and `(++ 1)` emit `list_append` calls over whatever
arguments were given. -/
theorem c9_fixed_arity_rules (args : List Node) :
    (args.length ≠ 1 → compile_builtin (.atom (.str "not") :: args) =
      .error (.typeError ("'not' takes 1 argument but " ++ toString args.length ++
        " were given!"))) ∧
    (args.length ≠ 2 → compile_builtin (.atom (.str "<") :: args) =
      .error (.typeError ("'<' takes 2 arguments but " ++ toString args.length ++
        " were given!"))) ∧
    (args.length ≠ 2 → compile_builtin (.atom (.str ">") :: args) =
      .error (.typeError ("'>' takes 2 arguments but " ++ toString args.length ++
        " were given!"))) ∧
    (args.length ≠ 2 → compile_builtin (.atom (.str "<=") :: args) =
      .error (.typeError ("'<=' takes 2 arguments but " ++ toString args.length ++
        " were given!"))) ∧
    (args.length ≠ 2 → compile_builtin (.atom (.str ">=") :: args) =
      .error (.typeError ("'>=' takes 2 arguments but " ++ toString args.length ++
        " were given!"))) ∧
    (args.length ≠ 2 → compile_builtin (.atom (.str "=") :: args) =
      .error (.typeError ("'=' takes 2 arguments but " ++ toString args.length ++
        " were given!"))) ∧
    (args.length ≠ 1 → compile_builtin (.atom (.str "first") :: args) =
      .error (.typeError ("'first' takes 1 argument but " ++ toString args.length ++
        " were given!"))) ∧
    (args.length ≠ 1 → compile_builtin (.atom (.str "rest") :: args) =
      .error (.typeError ("'rest' takes 1 argument but " ++ toString args.length ++
        " were given!"))) ∧
    (args.length ≠ 2 → compile_builtin (.atom (.str "map") :: args) =
      .error (.typeError ("'map' takes 2 arguments but " ++ toString args.length ++
        " were given!"))) ∧
    (args.length ≠ 2 → compile_builtin (.atom (.str "filter") :: args) =
      .error (.typeError ("'filter' takes 2 arguments but " ++ toString args.length ++
        " were given!"))) ∧
    (args.length ≠ 3 → compile_builtin (.atom (.str "if") :: args) =
      .error (.typeError ("if requires 3 arguments but " ++ toString args.length ++
        " were given!"))) ∧
    compile_builtin [.atom (.str "lambda"), .atom (.str "x"), .atom (.str "y"),
      .atom (.str "z")] = .ok "lambda x: y" ∧
    compile_builtin [.atom (.str "++"), .atom (.num 1), .atom (.num 2),
      .atom (.num 3)] = .ok "list_append(1, 2, 3)" ∧
    compile_builtin [.atom (.str "++"), .atom (.num 1)] = .ok "list_append(1)" := by
  have htwo : toString (2 : Nat) = "2" := by decide
  have hint1 : toString (1 : Int) = "1" := by decide
  have hint2 : toString (2 : Int) = "2" := by decide
  have hint3 : toString (3 : Int) = "3" := by decide
  refine ⟨?_, ?_, ?_, ?_, ?_, ?_, ?_, ?_, ?_, ?_, ?_, ?_, ?_, ?_⟩
  · intro h
    simp [compile_builtin, emit_not, h]
  · intro h
    simp [compile_builtin, create_op, h, htwo]
  · intro h
    simp [compile_builtin, create_op, h, htwo]
  · intro h
    simp [compile_builtin, create_op, h, htwo]
  · intro h
    simp [compile_builtin, create_op, h, htwo]
  · intro h
    simp [compile_builtin, emit_eq, h]
  · intro h
    simp [compile_builtin, emit_first, h]
  · intro h
    simp [compile_builtin, emit_rest, h]
  · intro h
    simp [compile_builtin, emit_map, h]
  · intro h
    simp [compile_builtin, emit_filter, h]
  · intro h
    simp [compile_builtin, emit_if, h]
  · simp [compile_builtin, emit_lambda, emit_lambda_body, compile_lambda_params,
      compile_obj, current_indent_str, Literal.text]
  · simp [compile_builtin, emit_append, create_body, create_body_rest, compile_obj,
      current_indent_str, Literal.text, hint1, hint2, hint3]
  · simp [compile_builtin, emit_append, create_body, compile_obj,
      current_indent_str, Literal.text, hint1]

/-- C9 witness: the arity rules applied at concrete forms — the claim's
own example `(not 1 2)` citing operator `not`, expected 1, actual 2, and
a comparison and an `if` with the wrong count. -/
theorem c9_witness :
    compile_builtin [.atom (.str "not"), .atom (.num 1), .atom (.num 2)] =
      .error (.typeError "'not' takes 1 argument but 2 were given!") ∧
    compile_builtin [.atom (.str "<"), .atom (.num 1)] =
      .error (.typeError "'<' takes 2 arguments but 1 were given!") ∧
    compile_builtin [.atom (.str "if"), .atom (.num 1)] =
      .error (.typeError "if requires 3 arguments but 1 were given!") := by
  refine ⟨?_, ?_, ?_⟩
  · rw [(c9_fixed_arity_rules [.atom (.num 1), .atom (.num 2)]).1 (by decide)]
    simp only [Except.error.injEq, PyErr.typeError.injEq]
    decide
  · rw [(c9_fixed_arity_rules [.atom (.num 1)]).2.1 (by decide)]
    simp only [Except.error.injEq, PyErr.typeError.injEq]
    decide
  · rw [(c9_fixed_arity_rules [.atom (.num 1)]).2.2.2.2.2.2.2.2.2.2.1 (by decide)]
    simp only [Except.error.injEq, PyErr.typeError.injEq]
    decide

/-- C1 (code bug): compiler.py line 159 reads
`if not is_function_def(obj) and is_import(obj):` — a missing `not`
before `is_import`.  In consequence `validate`, and with it
`compile_program`, REJECTS a top-level import (with a message that
itself says imports are expected at root level), and ACCEPTS a top-level
form that is neither a function definition nor an import, such as
`(print 1)` — the exact opposite of the claim and of the spec sentence
it quotes. -/
theorem c1_validate_condition_inverted :
    is_import (.form [.atom (.str "import"), .atom (.str "math")]) = true ∧
    is_function_def (.form [.atom (.str "import"), .atom (.str "math")]) = false ∧
    validate [.form [.atom (.str "import"), .atom (.str "math")]] =
      (false, "Expected only function definitions and imports at root-level but got: " ++
        node_text (.form [.atom (.str "import"), .atom (.str "math")])) ∧
    compile_program [.form [.atom (.str "import"), .atom (.str "math")]] [] true =
      .ok (false, "Expected only function definitions and imports at root-level but got: " ++
        node_text (.form [.atom (.str "import"), .atom (.str "math")]), []) ∧
    is_function_def (.form [.atom (.str "print"), .atom (.num 1)]) = false ∧
    is_import (.form [.atom (.str "print"), .atom (.num 1)]) = false ∧
    compile_program [.form [.atom (.str "print"), .atom (.num 1)]] [] true =
      .ok (true, "from lisp_core import *\n\nprint(1)\n\n", []) := by
  have hval : validate [.form [.atom (.str "import"), .atom (.str "math")]] =
      (false, "Expected only function definitions and imports at root-level but got: " ++
        node_text (.form [.atom (.str "import"), .atom (.str "math")])) := by
    simp +decide [validate, is_form_node, is_function_def, is_import, function_def_keyword]
  have hprint : compile_obj (.form [.atom (.str "print"), .atom (.num 1)]) 0 =
      .ok "print(1)" := by
    simp +decide [compile_obj, compile_builtin, emit_print, create_body,
      current_indent_str, Literal.text, builtin_functions]
  refine ⟨by decide, by decide, hval, ?_, by decide, by decide, ?_⟩
  · simp [compile_program, hval]
  · have hval2 : validate [.form [.atom (.str "print"), .atom (.num 1)]] = (true, "") := by
      simp +decide [validate, is_form_node, is_function_def, is_import, function_def_keyword]
    simp +decide [compile_program, hval2, build_local_namespace, is_function_def,
      function_def_keyword, dict_merge, convert_to_output, hprint, List.foldlM,
      List.mapM, List.mapM.loop, String.intercalate, String.intercalate.go, dict_set,
      pure, Except.pure, bind, Except.bind]
